import Mathlib

/-!
Verification of the cloud-services telemetry relay.

This file gives a shallow embedding, in Lean 4, of the core of the
repository (the websocket hub/client endpoint handlers, the in-memory
store `src/storage/memory_store.py`, and the command dispatcher
`src/services/command_service.py`), together with theorems settling the
behavioural claims about it.

Modelling conventions:
  - Python dicts are modelled as association lists (`List (k × v)`) with
    insertion-order-preserving insert (`mapInsert`), lookup (`mapLookup`)
    and key removal (`mapErase`).  A dict never holds a key twice, so
    `mapErase` removes every entry with the key.
  - `datetime.utcnow()` timestamps are modelled as abstract `Nat` clock
    ticks passed in by the caller (`now`).
  - Python truthiness of an optional string (`if not authenticated_hub_id`)
    is `pyTruthyStr?`; truthiness of an optional dict is `pyTruthyDict?`
    (`None` and the empty dict are falsy).
  - Python's negative-start slice `l[start:]` is `pySliceFrom`.
  - `base64.b64decode` is an external pure function; handlers take the
    decoded length as a function parameter `b64len : String → Nat`.
  - Websocket sends may fail (raise) in Python; a send outcome oracle
    `sendOk : String → Bool` (per connection id) models which sends
    succeed, and `Except String Unit` models a single send result.
-/

/-- Lookup in an association list (Python `d.get(k)`). -/
def mapLookup {α β : Type} [DecidableEq α] : List (α × β) → α → Option β
  | [], _ => none
  | (k', v') :: rest, k => if k' = k then some v' else mapLookup rest k

/-- Insert/replace in an association list (Python `d[k] = v`): replaces the
value in place when the key is present, appends otherwise. -/
def mapInsert {α β : Type} [DecidableEq α] : List (α × β) → α → β → List (α × β)
  | [], k, v => [(k, v)]
  | (k', v') :: rest, k, v =>
      if k' = k then (k, v) :: rest else (k', v') :: mapInsert rest k v

/-- Remove a key from an association list (Python `d.pop(k, None)`). -/
def mapErase {α β : Type} [DecidableEq α] (m : List (α × β)) (k : α) : List (α × β) :=
  m.filter (fun e => e.1 ≠ k)

/-- The last `n` elements of a list. -/
def lastN {α : Type} (n : Nat) (l : List α) : List α :=
  l.drop (l.length - n)

/-- Python slice `l[start:]`: a non-negative start drops `start` elements
from the front; a negative start keeps the last `-start` elements (the
whole list when `-start` exceeds the length). -/
def pySliceFrom {α : Type} (start : Int) (l : List α) : List α :=
  if 0 ≤ start then l.drop start.toNat else l.drop (l.length - (-start).toNat)

/-- A Python scalar value stored in a `device_info` / `result` dict. -/
inductive PyVal where
  | S (s : String)
  | N (n : Nat)
deriving DecidableEq

/-- A Python string-keyed dict of scalars (e.g. `deviceInfo`). -/
abbrev PyDict := List (String × PyVal)

/-- Python `d.get(k, dflt)` expecting a string value. -/
def dictGetStr (d : PyDict) (k dflt : String) : String :=
  match mapLookup d k with
  | some (PyVal.S s) => s
  | _ => dflt

/-- Python `d.get(k, dflt)` expecting an integer value. -/
def dictGetNat (d : PyDict) (k : String) (dflt : Nat) : Nat :=
  match mapLookup d k with
  | some (PyVal.N n) => n
  | _ => dflt

/-- Python `d.get(k)` expecting a string value, `None` when absent. -/
def dictGetStrOpt (d : PyDict) (k : String) : Option String :=
  match mapLookup d k with
  | some (PyVal.S s) => some s
  | _ => none

/-- Python truthiness of an `Optional[str]`: `None` and `""` are falsy. -/
def pyTruthyStr? (o : Option String) : Bool :=
  match o with
  | none => false
  | some s => s ≠ ""

/-- Python truthiness of an `Optional[dict]`: `None` and `{}` are falsy. -/
def pyTruthyDict? (o : Option PyDict) : Bool :=
  match o with
  | none => false
  | some d => !d.isEmpty

/-- Python `a or b` on strings (`telemetry.sessionId or existing.session_id`). -/
def pyOrStr (a b : String) : String :=
  if a ≠ "" then a else b

/-- Python `a or b` on integers (`existing_conn.baud_rate or 0`). -/
def pyOrNat (a b : Nat) : Nat :=
  if a ≠ 0 then a else b

/-! ## Data model (`src/storage/memory_store.py` dataclasses) -/

/-- `TelemetryData` dataclass. -/
structure TelemetryData where
  timestamp : Nat
  port_id : String
  session_id : String
  data : String
  data_size_bytes : Nat
deriving DecidableEq

/-- `HubConnection` dataclass (the raw websocket handle is not part of the
pure state; send outcomes are modelled separately). -/
structure HubConnection where
  hub_id : String
  connected_at : Nat
  last_seen : Nat
  version : String
deriving DecidableEq

/-- `DeviceEvent` dataclass. -/
structure DeviceEvent where
  timestamp : Nat
  event_type : String
  port_id : String
  device_info : Option PyDict
deriving DecidableEq

/-- `PortData` dataclass. -/
structure PortData where
  port_id : String
  port : String
  description : Option String
  manufacturer : Option String
  serial_number : Option String
  vendor_id : Option String
  product_id : Option String
deriving DecidableEq

/-- `ConnectionData` dataclass.  The stored `connected_at` is always a
concrete timestamp: `update_connection` writes `connected_at or utcnow()`. -/
structure ConnectionData where
  port_id : String
  status : String
  baud_rate : Nat
  session_id : String
  bytes_read : Nat
  bytes_written : Nat
  connected_at : Nat
deriving DecidableEq

/-- `TaskStatus` dataclass. -/
structure TaskStatus where
  timestamp : Nat
  task_id : String
  status : String
  progress : Option Int
  result : Option PyDict
  error : Option String
deriving DecidableEq

/-- `MemoryStore`: nested dicts keyed by hub id (and port/task id; the
nested `hub_id -> port_id -> v` dicts are flattened to pair keys). -/
structure MemoryStore where
  max_telemetry_per_hub : Nat
  hubs : List (String × HubConnection)
  telemetry : List (String × List TelemetryData)
  device_events : List (String × List DeviceEvent)
  ports : List ((String × String) × PortData)
  connections : List ((String × String) × ConnectionData)
  task_status : List ((String × String) × TaskStatus)
deriving DecidableEq

/-- A fresh `MemoryStore(max_telemetry_per_hub)` (the constructor default
is 1000). -/
def MemoryStore.empty (cap : Nat) : MemoryStore :=
  ⟨cap, [], [], [], [], [], []⟩

/-- `MemoryStore.add_hub_connection`. -/
def MemoryStore.add_hub_connection (st : MemoryStore) (now : Nat)
    (hub_id version : String) : MemoryStore :=
  { st with hubs := mapInsert st.hubs hub_id ⟨hub_id, now, now, version⟩ }

/-- `MemoryStore.get_hub_connection`. -/
def MemoryStore.get_hub_connection (st : MemoryStore) (hub_id : String) :
    Option HubConnection :=
  mapLookup st.hubs hub_id

/-- `MemoryStore.remove_hub_connection`. -/
def MemoryStore.remove_hub_connection (st : MemoryStore) (hub_id : String) :
    MemoryStore :=
  { st with hubs := mapErase st.hubs hub_id }

/-- The telemetry list currently stored for a hub
(`self._telemetry[hub_id]`, a `defaultdict(list)`). -/
def MemoryStore.telemetryOf (st : MemoryStore) (hub_id : String) :
    List TelemetryData :=
  (mapLookup st.telemetry hub_id).getD []

/-- `MemoryStore.add_telemetry`: append the entry, then when the list
exceeds the cap keep `l[-cap:]`. -/
def MemoryStore.add_telemetry (st : MemoryStore) (now : Nat)
    (hub_id port_id session_id data : String) (data_size_bytes : Nat) :
    MemoryStore :=
  let entry : TelemetryData := ⟨now, port_id, session_id, data, data_size_bytes⟩
  let l := st.telemetryOf hub_id ++ [entry]
  let l' := if st.max_telemetry_per_hub < l.length then
      pySliceFrom (-(st.max_telemetry_per_hub : Int)) l
    else l
  { st with telemetry := mapInsert st.telemetry hub_id l' }

/-- `MemoryStore.get_telemetry`: `if limit: return entries[-limit:]` —
`limit` equal to `None` or `0` is falsy and returns the whole list. -/
def MemoryStore.get_telemetry (st : MemoryStore) (hub_id : String)
    (limit : Option Int) : List TelemetryData :=
  let entries := st.telemetryOf hub_id
  match limit with
  | some n => if n ≠ 0 then pySliceFrom (-n) entries else entries
  | none => entries

/-- The device-event list currently stored for a hub. -/
def MemoryStore.deviceEventsOf (st : MemoryStore) (hub_id : String) :
    List DeviceEvent :=
  (mapLookup st.device_events hub_id).getD []

/-- `MemoryStore.add_device_event`: append the event and, when the type is
`"connected"` and `device_info` is truthy, populate the ports dict. -/
def MemoryStore.add_device_event (st : MemoryStore) (now : Nat)
    (hub_id event_type port_id : String) (device_info : Option PyDict) :
    MemoryStore :=
  let event : DeviceEvent := ⟨now, event_type, port_id, device_info⟩
  let st1 := { st with
    device_events := mapInsert st.device_events hub_id
      (st.deviceEventsOf hub_id ++ [event]) }
  if event_type = "connected" ∧ pyTruthyDict? device_info then
    match device_info with
    | some d =>
        let port_data : PortData :=
          ⟨port_id, dictGetStr d "port" "", dictGetStrOpt d "description",
           dictGetStrOpt d "manufacturer", dictGetStrOpt d "serial_number",
           dictGetStrOpt d "vendor_id", dictGetStrOpt d "product_id"⟩
        { st1 with ports := mapInsert st1.ports (hub_id, port_id) port_data }
    | none => st1
  else st1

/-- `MemoryStore.get_port`. -/
def MemoryStore.get_port (st : MemoryStore) (hub_id port_id : String) :
    Option PortData :=
  mapLookup st.ports (hub_id, port_id)

/-- `MemoryStore.update_connection`: overwrite the record for
`(hub_id, port_id)`; `connected_at or datetime.utcnow()`. -/
def MemoryStore.update_connection (st : MemoryStore) (now : Nat)
    (hub_id port_id status : String) (baud_rate : Nat) (session_id : String)
    (bytes_read bytes_written : Nat) (connected_at : Option Nat) :
    MemoryStore :=
  { st with connections := (mapInsert st.connections (hub_id, port_id)
      ⟨port_id, status, baud_rate, session_id, bytes_read, bytes_written,
       connected_at.getD now⟩) }

/-- `MemoryStore.remove_connection`. -/
def MemoryStore.remove_connection (st : MemoryStore) (hub_id port_id : String) :
    MemoryStore :=
  { st with connections := mapErase st.connections (hub_id, port_id) }

/-- `MemoryStore.get_connection`. -/
def MemoryStore.get_connection (st : MemoryStore) (hub_id port_id : String) :
    Option ConnectionData :=
  mapLookup st.connections (hub_id, port_id)

/-- `MemoryStore.update_task_status`. -/
def MemoryStore.update_task_status (st : MemoryStore) (now : Nat)
    (hub_id task_id status : String) (progress : Option Int)
    (result : Option PyDict) (error : Option String) : MemoryStore :=
  { st with task_status := (mapInsert st.task_status (hub_id, task_id)
      ⟨now, task_id, status, progress, result, error⟩) }

/-- `MemoryStore.get_task_status`. -/
def MemoryStore.get_task_status (st : MemoryStore) (hub_id task_id : String) :
    Option TaskStatus :=
  mapLookup st.task_status (hub_id, task_id)

/-! ## Client sessions and the broadcast engine
(`src/websocket/client_endpoint.py`) -/

/-- `ClientConnection`: a connected client with its subscription set.
Python keeps a `set` of `(hub_id, port_id)` tuples; it is modelled as a
duplicate-free list (`subscribe` inserts only when absent). -/
structure ClientConnection where
  username : String
  subscriptions : List (String × String)
deriving DecidableEq

/-- `ClientConnection.is_subscribed`: membership in the subscription set. -/
def ClientConnection.is_subscribed (c : ClientConnection)
    (hub_id port_id : String) : Bool :=
  (hub_id, port_id) ∈ c.subscriptions

/-- `ClientConnection.subscribe` (`set.add`: no-op when present). -/
def ClientConnection.subscribe (c : ClientConnection) (hub_id port_id : String) :
    ClientConnection :=
  if (hub_id, port_id) ∈ c.subscriptions then c
  else { c with subscriptions := c.subscriptions ++ [(hub_id, port_id)] }

/-- `ClientConnection.unsubscribe` (`set.discard`: no-op when absent). -/
def ClientConnection.unsubscribe (c : ClientConnection)
    (hub_id port_id : String) : ClientConnection :=
  { c with subscriptions := c.subscriptions.filter (fun hp => hp ≠ (hub_id, port_id)) }

/-- The `ClientManager.clients` dict: connection id to `ClientConnection`,
in insertion order. -/
abbrev Clients := List (String × ClientConnection)

/-- Outcome of one broadcast fan-out: `attempted` is the list of connection
ids the message was sent to (Python reached `send_text`), in iteration
order; `failed` is the sub-list whose send raised (collected in the local
`disconnected` list). -/
structure FanOutResult where
  attempted : List String
  failed : List String
deriving DecidableEq

/-- The shared fan-out loop of the four `ClientManager.broadcast_*`
methods: iterate the clients dict, send to each client passing the filter,
and collect ids whose send failed.  The serialized payload is the same
string for every recipient and is not modelled.  `sendOk` tells, per
connection id, whether `websocket.send_text` succeeds or raises. -/
def fanOutLoop (sendOk : String → Bool) (pred : ClientConnection → Bool) :
    Clients → FanOutResult
  | [] => ⟨[], []⟩
  | (cid, c) :: rest =>
      let r := fanOutLoop sendOk pred rest
      if pred c then
        if sendOk cid then ⟨cid :: r.attempted, r.failed⟩
        else ⟨cid :: r.attempted, cid :: r.failed⟩
      else r

/-- `ClientManager.remove_client`: `self.clients.pop(connection_id, None)`. -/
def removeClient (clients : Clients) (connection_id : String) : Clients :=
  clients.filter (fun e => e.1 ≠ connection_id)

/-- Common shape of every `ClientManager.broadcast_*` method: fan out over
the clients dict (never mutating it during iteration), then remove each
failed client, returning the fan-out outcome and the new clients dict. -/
def broadcastWith (sendOk : String → Bool) (pred : ClientConnection → Bool)
    (clients : Clients) : FanOutResult × Clients :=
  let r := fanOutLoop sendOk pred clients
  (r, r.failed.foldl removeClient clients)

/-- `ClientManager.broadcast_telemetry`: send only to clients subscribed to
`(hub_id, port_id)`. -/
def broadcast_telemetry (sendOk : String → Bool) (clients : Clients)
    (hub_id port_id : String) : FanOutResult × Clients :=
  broadcastWith sendOk (fun c => c.is_subscribed hub_id port_id) clients

/-- `ClientManager.broadcast_health`: send to every client, unfiltered. -/
def broadcast_health (sendOk : String → Bool) (clients : Clients)
    (hub_id : String) : FanOutResult × Clients :=
  broadcastWith sendOk (fun _ => true) clients

/-- `ClientManager.broadcast_device_event`: send only to clients subscribed
to `(hub_id, port_id)`. -/
def broadcast_device_event (sendOk : String → Bool) (clients : Clients)
    (hub_id port_id : String) : FanOutResult × Clients :=
  broadcastWith sendOk (fun c => c.is_subscribed hub_id port_id) clients

/-- `ClientManager.broadcast_task_status`: send to every client, unfiltered.
Defined at client_endpoint.py:103; note it has no call site anywhere in the
repository. -/
def broadcast_task_status (sendOk : String → Bool) (clients : Clients)
    (hub_id : String) : FanOutResult × Clients :=
  broadcastWith sendOk (fun _ => true) clients

/-- One entry of a subscribe/unsubscribe request's `subscriptions` list:
Python reads `sub.get("hubId")` and `sub.get("portId")`, either of which
may be missing. -/
structure SubRequestEntry where
  hubId : Option String
  portId : Option String
deriving DecidableEq

/-- The request entries passing the `if hub_id and port_id` truthiness
check, as `(hub_id, port_id)` pairs, in request order. -/
def validSubPairs (subs : List SubRequestEntry) : List (String × String) :=
  subs.filterMap (fun s =>
    if pyTruthyStr? s.hubId ∧ pyTruthyStr? s.portId then
      some (s.hubId.getD "", s.portId.getD "")
    else none)

/-- `handle_unsubscribe` (client_endpoint.py:240): discard every named pair
that has both fields truthy, then confirm with a `subscription_status`
message listing every such named pair with status `"inactive"` (the
comprehension re-filters the request list, not the removed pairs). -/
def handle_unsubscribe (c : ClientConnection) (subs : List SubRequestEntry) :
    ClientConnection × List (String × String × String) :=
  let c' := (validSubPairs subs).foldl (fun cl hp => cl.unsubscribe hp.1 hp.2) c
  (c', (validSubPairs subs).map (fun hp => (hp.1, hp.2, "inactive")))

/-! ## Hub session handler (`src/websocket/hub_endpoint.py`) -/

/-- `HubHandshake` pydantic model. -/
structure HubHandshake where
  hubId : String
  deviceToken : String
  timestamp : String
  version : String
deriving DecidableEq

/-- Outcome of processing a hub handshake: the close code/reason when the
connection is rejected, and the resulting store (registration happens
only on success). -/
structure HandshakeOutcome where
  closeCode : Option Nat
  closeReason : String
  store : MemoryStore
deriving DecidableEq

/-- Handshake verification in `handle_hub_connection`
(hub_endpoint.py:61-81): `verify` is the device-credential map lookup
(`verify_device_token`, auth_service.py:154, which returns
`valid_tokens.get(device_token)`).  A falsy result (unknown token, or a
token bound to the empty hub id) closes with 1008 "Invalid device token";
a bound id different from the claimed `hubId` closes with 1008
"Hub ID mismatch"; otherwise the hub is registered in the store. -/
def handle_hub_handshake (verify : String → Option String) (now : Nat)
    (hs : HubHandshake) (st : MemoryStore) : HandshakeOutcome :=
  match verify hs.deviceToken with
  | none => ⟨some 1008, "Invalid device token", st⟩
  | some a =>
      if a = "" then ⟨some 1008, "Invalid device token", st⟩
      else if a ≠ hs.hubId then ⟨some 1008, "Hub ID mismatch", st⟩
      else ⟨none, "", st.add_hub_connection now hs.hubId hs.version⟩

/-- `TelemetryMessage` pydantic model. -/
structure TelemetryMessage where
  hubId : String
  timestamp : String
  portId : String
  sessionId : String
  data : String
deriving DecidableEq

/-- `DeviceEventMessage` pydantic model. -/
structure DeviceEventMessage where
  hubId : String
  timestamp : String
  eventType : String
  portId : String
  deviceInfo : Option PyDict
deriving DecidableEq

/-- `TaskStatusMessage` pydantic model. -/
structure TaskStatusMessage where
  hubId : String
  timestamp : String
  taskId : String
  status : String
  progress : Option Int
  result : Option PyDict
  error : Option String
deriving DecidableEq

/-- Result of one hub-message handler: the updated store, the broadcast
fan-out it triggered (empty when it sent nothing), and the updated
clients dict. -/
structure HandlerResult where
  store : MemoryStore
  fanout : FanOutResult
  clients : Clients
deriving DecidableEq

/-- `handle_telemetry` (hub_endpoint.py:144): append the entry with the
decoded payload length (`b64len` models `len(base64.b64decode(data))`),
upsert the connection record — incrementing `bytes_read` and preserving
`connected_at` when one exists, otherwise creating a minimal record and
synthesizing a `"connected"` device event carrying
`device_info = the dict mapping "port" to the port id` — then broadcast to
the subscribers of `(hub_id, portId)`. -/
def handle_telemetry (b64len : String → Nat) (sendOk : String → Bool)
    (now : Nat) (hub_id : String) (m : TelemetryMessage) (st : MemoryStore)
    (clients : Clients) : HandlerResult :=
  let n := b64len m.data
  let st1 := st.add_telemetry now hub_id m.portId m.sessionId m.data n
  let st2 :=
    match st1.get_connection hub_id m.portId with
    | some existing =>
        st1.update_connection now hub_id m.portId "connected"
          (pyOrNat existing.baud_rate 0)
          (pyOrStr m.sessionId existing.session_id)
          (existing.bytes_read + n) existing.bytes_written
          (some existing.connected_at)
    | none =>
        let stA := st1.update_connection now hub_id m.portId "connected" 0
          m.sessionId n 0 none
        stA.add_device_event now hub_id "connected" m.portId
          (some [("port", PyVal.S m.portId)])
  let rc := broadcast_telemetry sendOk clients hub_id m.portId
  ⟨st2, rc.1, rc.2⟩

/-- `handle_device_event` (hub_endpoint.py:253): record the event (which
populates the port table when the type is `"connected"` with truthy
`deviceInfo`), create a connection record on `"connected"` with truthy
`deviceInfo`, remove it on `"disconnected"`, then broadcast to the
subscribers of `(hub_id, portId)`. -/
def handle_device_event (sendOk : String → Bool) (now : Nat) (hub_id : String)
    (m : DeviceEventMessage) (st : MemoryStore) (clients : Clients) :
    HandlerResult :=
  let st1 := st.add_device_event now hub_id m.eventType m.portId m.deviceInfo
  let st2 :=
    if m.eventType = "connected" ∧ pyTruthyDict? m.deviceInfo then
      match m.deviceInfo with
      | some d =>
          st1.update_connection now hub_id m.portId "connected"
            (dictGetNat d "baud_rate" 115200) (dictGetStr d "session_id" "")
            0 0 none
      | none => st1
    else if m.eventType = "disconnected" then
      st1.remove_connection hub_id m.portId
    else st1
  let rc := broadcast_device_event sendOk clients hub_id m.portId
  ⟨st2, rc.1, rc.2⟩

/-- `handle_task_status` (hub_endpoint.py:300): update the task-status
record and return.  The source never hands the event to the client
manager — `ClientManager.broadcast_task_status` has no call site — so the
fan-out is empty and the clients dict is untouched. -/
def handle_task_status (now : Nat) (hub_id : String) (m : TaskStatusMessage)
    (st : MemoryStore) (clients : Clients) : HandlerResult :=
  ⟨st.update_task_status now hub_id m.taskId m.status m.progress m.result
     m.error,
   ⟨[], []⟩, clients⟩

/-! ## Command dispatcher (`src/services/command_service.py`) -/

/-- `send_command_to_hub` (command_service.py:12): look up the hub's live
session; absent hubs yield `False`; otherwise send the command envelope,
turning a send exception (`sendResult = .error e`) into `False` and a
successful send into `True`.  The command dict only feeds the serialized
envelope and is not modelled. -/
def send_command_to_hub (sendResult : Except String Unit) (st : MemoryStore)
    (hub_id : String) : Bool :=
  match st.get_hub_connection hub_id with
  | none => false
  | some _ =>
      match sendResult with
      | Except.ok _ => true
      | Except.error _ => false

/-! ## Lemmas about the association-list and slice helpers -/

theorem mapLookup_mapInsert_self {α β : Type} [DecidableEq α]
    (m : List (α × β)) (k : α) (v : β) :
    mapLookup (mapInsert m k v) k = some v := by
  induction m with
  | nil => simp [mapInsert, mapLookup]
  | cons e rest ih =>
      obtain ⟨k', v'⟩ := e
      by_cases h : k' = k
      · simp [mapInsert, mapLookup, h]
      · simp [mapInsert, mapLookup, h, ih]

theorem mapLookup_mapErase_self {α β : Type} [DecidableEq α]
    (m : List (α × β)) (k : α) :
    mapLookup (mapErase m k) k = none := by
  induction m with
  | nil => rfl
  | cons e rest ih =>
      obtain ⟨k', v'⟩ := e
      by_cases h : k' = k
      · simpa [mapErase, List.filter_cons, h] using ih
      · simpa [mapErase, List.filter_cons, mapLookup, h] using ih

theorem lastN_of_le {α : Type} {n : Nat} {l : List α} (h : l.length ≤ n) :
    lastN n l = l := by
  simp [lastN, Nat.sub_eq_zero_of_le h]

theorem lastN_length_le {α : Type} (n : Nat) (l : List α) :
    (lastN n l).length ≤ n := by
  simp only [lastN, List.length_drop]
  omega

theorem pySliceFrom_neg {α : Type} (cap : Nat) (hcap : 0 < cap) (l : List α) :
    pySliceFrom (-(cap : Int)) l = lastN cap l := by
  unfold pySliceFrom lastN
  rw [if_neg (by omega), neg_neg, Int.toNat_natCast]

theorem lastN_lastN_append {α : Type} (n : Nat) (x y : List α) :
    lastN n (lastN n x ++ y) = lastN n (x ++ y) := by
  rcases le_or_lt x.length n with h | h
  · rw [lastN_of_le h]
  · have ha : (lastN n x).length = n := by
      simp only [lastN, List.length_drop]; omega
    unfold lastN
    rw [List.drop_append_eq_append_drop, List.drop_append_eq_append_drop]
    simp only [lastN, List.length_append, ha, List.length_drop, List.drop_drop]
    have e1 : x.length - n + (x.length - (x.length - n) + y.length - n)
        = x.length + y.length - n := by omega
    have e2 : x.length - (x.length - n) + y.length - n
          - (x.length - (x.length - n))
        = x.length + y.length - n - x.length := by omega
    rw [e1, e2]

/-! ## The telemetry ring buffer (claim C3) -/

/-- The effect of one `add_telemetry` call on the per-hub telemetry list. -/
def telStep (cap : Nat) (l : List TelemetryData) (e : TelemetryData) :
    List TelemetryData :=
  let l' := l ++ [e]
  if cap < l'.length then pySliceFrom (-(cap : Int)) l' else l'

theorem telemetryOf_add_telemetry (st : MemoryStore) (now : Nat)
    (hub_id port_id session_id data : String) (n : Nat) :
    (st.add_telemetry now hub_id port_id session_id data n).telemetryOf hub_id
      = telStep st.max_telemetry_per_hub (st.telemetryOf hub_id)
          ⟨now, port_id, session_id, data, n⟩ := by
  simp [MemoryStore.add_telemetry, MemoryStore.telemetryOf, telStep,
    mapLookup_mapInsert_self]

theorem telStep_eq_lastN {cap : Nat} (hcap : 0 < cap)
    {l : List TelemetryData} (h : l.length ≤ cap) (e : TelemetryData) :
    telStep cap l e = lastN cap (l ++ [e]) := by
  unfold telStep
  by_cases hc : cap < (l ++ [e]).length
  · rw [if_pos hc, pySliceFrom_neg cap hcap]
  · rw [if_neg hc, lastN_of_le (Nat.le_of_not_lt hc)]

theorem telStep_foldl (cap : Nat) (hcap : 0 < cap) :
    ∀ (es l : List TelemetryData), l.length ≤ cap →
      es.foldl (telStep cap) l = lastN cap (l ++ es)
  | [], l, h => by simpa using (lastN_of_le h).symm
  | e :: es, l, h => by
      rw [List.foldl_cons, telStep_eq_lastN hcap h e,
        telStep_foldl cap hcap es (lastN cap (l ++ [e])) (lastN_length_le cap _),
        lastN_lastN_append, List.append_assoc]
      simp

theorem telemetryOf_foldl (hub_id : String) :
    ∀ (es : List TelemetryData) (st : MemoryStore),
      (es.foldl (fun s e =>
          s.add_telemetry e.timestamp hub_id e.port_id e.session_id e.data
            e.data_size_bytes) st).telemetryOf hub_id
        = es.foldl (telStep st.max_telemetry_per_hub) (st.telemetryOf hub_id)
  | [], _ => rfl
  | e :: es, st => by
      rw [List.foldl_cons, List.foldl_cons, telemetryOf_foldl hub_id es _]
      have hmax : (st.add_telemetry e.timestamp hub_id e.port_id e.session_id
          e.data e.data_size_bytes).max_telemetry_per_hub
            = st.max_telemetry_per_hub := rfl
      rw [hmax, telemetryOf_add_telemetry]

/-- C3: for every hub and every sequence of `N` telemetry appends to that
hub with `N` greater than the cap, the stored telemetry list for that hub
equals exactly the last `cap` entries appended, in arrival order (oldest
entries evicted first). -/
theorem C3_telemetry_ring_buffer (cap : Nat) (hub_id : String)
    (es : List TelemetryData) (hcap : 0 < cap) (hlen : cap < es.length) :
    (es.foldl (fun s e =>
        s.add_telemetry e.timestamp hub_id e.port_id e.session_id e.data
          e.data_size_bytes) (MemoryStore.empty cap)).telemetryOf hub_id
      = es.drop (es.length - cap) := by
  rw [telemetryOf_foldl]
  have h0 : (MemoryStore.empty cap).telemetryOf hub_id = [] := rfl
  have hm : (MemoryStore.empty cap).max_telemetry_per_hub = cap := rfl
  rw [h0, hm, telStep_foldl cap hcap es [] (by simp)]
  simp [lastN]

/-- Witness for C3 at `cap = 2` and three concrete appends: the store keeps
exactly the last two entries, in order. -/
theorem C3_telemetry_ring_buffer_witness :
    0 < 2 ∧ (2 : Nat) < 3 ∧
    ([⟨1, "P1", "s", "a", 1⟩, ⟨2, "P1", "s", "b", 1⟩,
      (⟨3, "P1", "s", "c", 1⟩ : TelemetryData)].foldl (fun s e =>
        s.add_telemetry e.timestamp "H1" e.port_id e.session_id e.data
          e.data_size_bytes) (MemoryStore.empty 2)).telemetryOf "H1"
      = [⟨2, "P1", "s", "b", 1⟩, ⟨3, "P1", "s", "c", 1⟩] :=
  ⟨by decide, by decide,
    (C3_telemetry_ring_buffer 2 "H1" _ (by decide) (by decide)).trans rfl⟩

/-! ## `get_telemetry` limit handling (claim C10) -/

/-- C10: `get_telemetry` with `limit = 0` returns the entire stored
telemetry list (a falsy limit is treated as no limit), while every
positive limit `k` returns exactly the last `min k length` stored
entries. -/
theorem C10_get_telemetry_limit (st : MemoryStore) (hub_id : String) :
    st.get_telemetry hub_id (some 0) = st.telemetryOf hub_id
    ∧ ∀ k : Int, 0 < k →
        st.get_telemetry hub_id (some k)
          = lastN k.toNat (st.telemetryOf hub_id)
        ∧ (st.get_telemetry hub_id (some k)).length
          = min k.toNat (st.telemetryOf hub_id).length := by
  constructor
  · simp [MemoryStore.get_telemetry]
  · intro k hk
    have hne : k ≠ 0 := by omega
    have hs : pySliceFrom (-k) (st.telemetryOf hub_id)
        = lastN k.toNat (st.telemetryOf hub_id) := by
      unfold pySliceFrom lastN
      rw [if_neg (by omega), neg_neg]
    constructor
    · simp [MemoryStore.get_telemetry, hne, hs]
    · simp only [MemoryStore.get_telemetry, hne, if_pos, ne_eq,
        not_false_iff, hs, lastN, List.length_drop]
      omega

/-- Witness for C10: on a store holding three entries, `limit = 0` returns
all three and `limit = 2` returns the last two. -/
theorem C10_get_telemetry_limit_witness :
    ((((MemoryStore.empty 1000).add_telemetry 1 "H1" "P1" "s" "a" 1
        ).add_telemetry 2 "H1" "P1" "s" "b" 1
        ).add_telemetry 3 "H1" "P1" "s" "c" 1).get_telemetry "H1" (some 0)
      = [⟨1, "P1", "s", "a", 1⟩, ⟨2, "P1", "s", "b", 1⟩, ⟨3, "P1", "s", "c", 1⟩]
    ∧ (0 : Int) < 2
    ∧ ((((MemoryStore.empty 1000).add_telemetry 1 "H1" "P1" "s" "a" 1
        ).add_telemetry 2 "H1" "P1" "s" "b" 1
        ).add_telemetry 3 "H1" "P1" "s" "c" 1).get_telemetry "H1" (some 2)
      = [⟨2, "P1", "s", "b", 1⟩, ⟨3, "P1", "s", "c", 1⟩] :=
  ⟨((C10_get_telemetry_limit _ "H1").1).trans (by decide), by decide,
    (((C10_get_telemetry_limit _ "H1").2 2 (by decide)).1).trans (by decide)⟩

/-! ## Broadcast fan-out lemmas (claims C2, C8) -/

theorem fanOutLoop_attempted (sendOk : String → Bool)
    (pred : ClientConnection → Bool) :
    ∀ clients : Clients,
      (fanOutLoop sendOk pred clients).attempted
        = (clients.filter (fun e => pred e.2)).map Prod.fst
  | [] => rfl
  | (cid, c) :: rest => by
      by_cases hp : pred c
      · by_cases hs : sendOk cid <;>
          simp [fanOutLoop, hp, hs, fanOutLoop_attempted sendOk pred rest,
            List.filter_cons]
      · simp [fanOutLoop, hp, fanOutLoop_attempted sendOk pred rest,
          List.filter_cons]

theorem fanOutLoop_failed (sendOk : String → Bool)
    (pred : ClientConnection → Bool) :
    ∀ clients : Clients,
      (fanOutLoop sendOk pred clients).failed
        = (clients.filter (fun e => pred e.2 && !sendOk e.1)).map Prod.fst
  | [] => rfl
  | (cid, c) :: rest => by
      by_cases hp : pred c
      · by_cases hs : sendOk cid <;>
          simp [fanOutLoop, hp, hs, fanOutLoop_failed sendOk pred rest,
            List.filter_cons]
      · simp [fanOutLoop, hp, fanOutLoop_failed sendOk pred rest,
          List.filter_cons]

theorem foldl_removeClient :
    ∀ (fs : List String) (clients : Clients),
      fs.foldl removeClient clients
        = clients.filter (fun e => decide (e.1 ∉ fs))
  | [], clients => by simp
  | f :: fs, clients => by
      rw [List.foldl_cons, foldl_removeClient fs (removeClient clients f)]
      unfold removeClient
      rw [List.filter_filter]
      refine List.filter_congr ?_
      intro e _
      by_cases h1 : e.1 = f <;> by_cases h2 : e.1 ∈ fs <;>
        simp [h1, h2, List.mem_cons]

theorem assoc_value_unique {α β : Type} [DecidableEq α] :
    ∀ (l : List (α × β)) (k : α) (v v' : β),
      (l.map Prod.fst).Nodup → (k, v) ∈ l → (k, v') ∈ l → v = v'
  | [], _, _, _, _, h, _ => by cases h
  | (k0, v0) :: rest, k, v, v', hnd, hm, hm' => by
      simp only [List.map_cons, List.nodup_cons] at hnd
      rcases List.mem_cons.mp hm with he | ht <;>
        rcases List.mem_cons.mp hm' with he' | ht'
      · rw [Prod.mk.injEq] at he he'
        exact he.2.trans he'.2.symm
      · rw [Prod.mk.injEq] at he
        exact absurd (List.mem_map.mpr ⟨(k, v'), ht', he.1⟩) hnd.1
      · rw [Prod.mk.injEq] at he'
        exact absurd (List.mem_map.mpr ⟨(k, v), ht, he'.1⟩) hnd.1
      · exact assoc_value_unique rest k v v' hnd.2 ht ht'

theorem mem_fanOutLoop_attempted_iff (sendOk : String → Bool)
    (pred : ClientConnection → Bool) (clients : Clients) (cid : String)
    (c : ClientConnection) (hnd : (clients.map Prod.fst).Nodup)
    (hmem : (cid, c) ∈ clients) :
    cid ∈ (fanOutLoop sendOk pred clients).attempted ↔ pred c = true := by
  rw [fanOutLoop_attempted]
  constructor
  · intro h
    obtain ⟨e, he, hfst⟩ := List.mem_map.mp h
    obtain ⟨hmem', hpred⟩ := List.mem_filter.mp he
    have heq : (cid, e.2) = e := by rw [← hfst]
    have hv : e.2 = c :=
      assoc_value_unique clients cid e.2 c hnd (heq.symm ▸ hmem') hmem
    rw [← hv]
    exact hpred
  · intro h
    exact List.mem_map.mpr ⟨(cid, c), List.mem_filter.mpr ⟨hmem, h⟩, rfl⟩

/-- C2: for every telemetry or device_event broadcast targeted at a pair
`(H, P)` and every live client session, the client is sent the message iff
`(H, P)` is in its subscription set; in particular a client subscribed only
to `(H, P)` receives no broadcast for any `(H, P')` with `P' ≠ P`. -/
theorem C2_broadcast_filtered_by_subscription (sendOk : String → Bool)
    (clients : Clients) (cid : String) (c : ClientConnection)
    (hnd : (clients.map Prod.fst).Nodup) (hmem : (cid, c) ∈ clients) :
    (∀ h p : String,
      (cid ∈ (broadcast_telemetry sendOk clients h p).1.attempted
        ↔ (h, p) ∈ c.subscriptions)
      ∧ (cid ∈ (broadcast_device_event sendOk clients h p).1.attempted
        ↔ (h, p) ∈ c.subscriptions))
    ∧ ∀ h p p' : String, c.subscriptions = [(h, p)] → p' ≠ p →
        cid ∉ (broadcast_telemetry sendOk clients h p').1.attempted
        ∧ cid ∉ (broadcast_device_event sendOk clients h p').1.attempted := by
  have key : ∀ h p : String,
      cid ∈ (fanOutLoop sendOk (fun cl => cl.is_subscribed h p)
          clients).attempted
        ↔ (h, p) ∈ c.subscriptions := by
    intro h p
    rw [mem_fanOutLoop_attempted_iff sendOk _ clients cid c hnd hmem]
    simp [ClientConnection.is_subscribed]
  refine ⟨fun h p => ⟨key h p, key h p⟩, ?_⟩
  intro h p p' hsub hne
  have : ¬ (h, p') ∈ c.subscriptions := by
    rw [hsub]
    simp only [List.mem_singleton, Prod.mk.injEq, not_and]
    intro _
    exact hne
  exact ⟨fun hm => this ((key h p').mp hm), fun hm => this ((key h p').mp hm)⟩

/-- Witness for C2: a client subscribed exactly to `("H1", "P1")` is sent
the telemetry broadcast for `("H1", "P1")` and not the one for
`("H1", "P2")`. -/
theorem C2_broadcast_filtered_by_subscription_witness :
    "client_1" ∈ (broadcast_telemetry (fun _ => true)
        [("client_1", ⟨"alice", [("H1", "P1")]⟩)] "H1" "P1").1.attempted
    ∧ "client_1" ∉ (broadcast_telemetry (fun _ => true)
        [("client_1", ⟨"alice", [("H1", "P1")]⟩)] "H1" "P2").1.attempted :=
  ⟨((C2_broadcast_filtered_by_subscription (fun _ => true)
      [("client_1", ⟨"alice", [("H1", "P1")]⟩)] "client_1"
      ⟨"alice", [("H1", "P1")]⟩ (by decide) (by decide)).1 "H1" "P1").1.mpr
      (by decide),
   ((C2_broadcast_filtered_by_subscription (fun _ => true)
      [("client_1", ⟨"alice", [("H1", "P1")]⟩)] "client_1"
      ⟨"alice", [("H1", "P1")]⟩ (by decide) (by decide)).2 "H1" "P1" "P2"
      rfl (by decide)).1⟩

/-- C8: for every broadcast over any set of live client sessions, a send
failure to one session does not prevent delivery to every other matching
session; the failing session is removed from the client registry; and
removals are applied only after the fan-out over the original session
collection completes.  `broadcastWith` is the common fan-out/cleanup shape
of all four `ClientManager.broadcast_*` methods (`broadcast_telemetry`,
`broadcast_health`, `broadcast_device_event`, `broadcast_task_status` are
each definitionally `broadcastWith` at their filter). -/
theorem C8_broadcast_fault_tolerance (sendOk : String → Bool)
    (pred : ClientConnection → Bool) (clients : Clients) (cid : String)
    (c : ClientConnection) (hmem : (cid, c) ∈ clients) :
    (pred c = true → sendOk cid = true →
      cid ∈ (broadcastWith sendOk pred clients).1.attempted
      ∧ cid ∉ (broadcastWith sendOk pred clients).1.failed)
    ∧ (pred c = true → sendOk cid = false →
      cid ∈ (broadcastWith sendOk pred clients).1.failed
      ∧ cid ∉ ((broadcastWith sendOk pred clients).2.map Prod.fst))
    ∧ (broadcastWith sendOk pred clients).2
      = clients.filter
          (fun e => decide (e.1 ∉ (fanOutLoop sendOk pred clients).failed)) := by
  have hw : (broadcastWith sendOk pred clients).1
      = fanOutLoop sendOk pred clients := rfl
  have hr : (broadcastWith sendOk pred clients).2
      = (fanOutLoop sendOk pred clients).failed.foldl removeClient clients :=
    rfl
  refine ⟨?_, ?_, ?_⟩
  · intro hp hs
    constructor
    · rw [hw, fanOutLoop_attempted]
      exact List.mem_map.mpr ⟨(cid, c), List.mem_filter.mpr ⟨hmem, hp⟩, rfl⟩
    · rw [hw, fanOutLoop_failed]
      intro h
      obtain ⟨e, he, hfst⟩ := List.mem_map.mp h
      obtain ⟨_, hpred⟩ := List.mem_filter.mp he
      rw [hfst, hs] at hpred
      simp at hpred
  · intro hp hs
    have hfail : cid ∈ (fanOutLoop sendOk pred clients).failed := by
      rw [fanOutLoop_failed]
      refine List.mem_map.mpr ⟨(cid, c), List.mem_filter.mpr ⟨hmem, ?_⟩, rfl⟩
      simp [hp, hs]
    constructor
    · rw [hw]; exact hfail
    · rw [hr, foldl_removeClient]
      intro h
      obtain ⟨e, he, hfst⟩ := List.mem_map.mp h
      obtain ⟨_, hkeep⟩ := List.mem_filter.mp he
      rw [hfst] at hkeep
      simp only [decide_eq_true_eq] at hkeep
      exact hkeep hfail
  · rw [hr, foldl_removeClient]

/-- Witness for C8: with the send to `client_1` failing and the one to
`client_2` succeeding, `client_2` still receives the unfiltered broadcast
and `client_1` is removed from the registry. -/
theorem C8_broadcast_fault_tolerance_witness :
    "client_2" ∈ (broadcastWith (fun cid => cid ≠ "client_1") (fun _ => true)
        [("client_1", ⟨"alice", []⟩), ("client_2", ⟨"bob", []⟩)]).1.attempted
    ∧ "client_1" ∉ ((broadcastWith (fun cid => cid ≠ "client_1")
        (fun _ => true)
        [("client_1", ⟨"alice", []⟩), ("client_2", ⟨"bob", []⟩)]).2.map
          Prod.fst) :=
  ⟨((C8_broadcast_fault_tolerance (fun cid => cid ≠ "client_1")
      (fun _ => true)
      [("client_1", ⟨"alice", []⟩), ("client_2", ⟨"bob", []⟩)] "client_2"
      ⟨"bob", []⟩ (by decide)).1 rfl (by decide)).1,
   ((C8_broadcast_fault_tolerance (fun cid => cid ≠ "client_1")
      (fun _ => true)
      [("client_1", ⟨"alice", []⟩), ("client_2", ⟨"bob", []⟩)] "client_1"
      ⟨"alice", []⟩ (by decide)).2.1 rfl (by decide)).2⟩

/-! ## Unsubscribe handling (claim C4) -/

theorem foldl_unsubscribe :
    ∀ (pairs : List (String × String)) (c : ClientConnection),
      (pairs.foldl (fun cl hp => cl.unsubscribe hp.1 hp.2) c).subscriptions
        = c.subscriptions.filter (fun hp => decide (hp ∉ pairs))
      ∧ (pairs.foldl (fun cl hp => cl.unsubscribe hp.1 hp.2) c).username
        = c.username
  | [], c => by simp
  | p :: ps, c => by
      rw [List.foldl_cons]
      refine ⟨?_, (foldl_unsubscribe ps (c.unsubscribe p.1 p.2)).2⟩
      rw [(foldl_unsubscribe ps (c.unsubscribe p.1 p.2)).1]
      unfold ClientConnection.unsubscribe
      rw [List.filter_filter]
      refine List.filter_congr ?_
      intro hp _
      by_cases h1 : hp = p <;> by_cases h2 : hp ∈ ps <;>
        simp [h1, h2, List.mem_cons]

/-- Counterexample to C4 as stated: a client with no subscriptions asks to
unsubscribe `("H1", "P1")`; the pair was not subscribed (so it was not
"actually removed"), yet the confirmation list contains it with status
`"inactive"` instead of omitting it. -/
theorem C4_counterexample :
    (handle_unsubscribe ⟨"alice", []⟩ [⟨some "H1", some "P1"⟩]).2
      = [("H1", "P1", "inactive")]
    ∧ ("H1", "P1") ∉ (⟨"alice", []⟩ : ClientConnection).subscriptions :=
  ⟨by decide, by decide⟩

/-- C4 amended: every named pair with both fields present and non-empty is
removed from the subscription set (a no-op when absent), and the
confirmation reply lists with status `"inactive"` every such named pair —
whether or not it was currently subscribed. -/
theorem C4_unsubscribe_confirms_all_named_pairs (c : ClientConnection)
    (subs : List SubRequestEntry) :
    (handle_unsubscribe c subs).1.subscriptions
      = c.subscriptions.filter (fun hp => decide (hp ∉ validSubPairs subs))
    ∧ (handle_unsubscribe c subs).1.username = c.username
    ∧ (handle_unsubscribe c subs).2
      = (validSubPairs subs).map (fun hp => (hp.1, hp.2, "inactive")) :=
  ⟨(foldl_unsubscribe (validSubPairs subs) c).1,
   (foldl_unsubscribe (validSubPairs subs) c).2, rfl⟩

/-! ## Hub handshake authentication (claim C5) -/

/-- C5: for every hub handshake whose device token is unknown to the
credential verifier, or whose token-bound hub id differs from the claimed
`hubId`, the connection is closed with policy-violation code 1008 and the
store is left untouched (no `HubSession` is registered for the claimed
hub id). -/
theorem C5_handshake_auth_rejection (verify : String → Option String)
    (now : Nat) (hs : HubHandshake) (st : MemoryStore)
    (h : verify hs.deviceToken = none ∨ verify hs.deviceToken ≠ some hs.hubId) :
    (handle_hub_handshake verify now hs st).closeCode = some 1008
    ∧ (handle_hub_handshake verify now hs st).store = st := by
  unfold handle_hub_handshake
  cases hv : verify hs.deviceToken with
  | none => exact ⟨rfl, rfl⟩
  | some a =>
      by_cases ha : a = ""
      · subst ha
        simp
      · have hne : a ≠ hs.hubId := by
          rcases h with h | h
          · rw [hv] at h
            cases h
          · rw [hv] at h
            intro he
            exact h (by rw [he])
        simp [ha, hne]

/-- Witness for C5: a token bound to hub `"H2"` claiming `hubId = "H1"` is
closed with 1008 and the (empty) store stays empty — `"H1"` is never
registered. -/
theorem C5_handshake_auth_rejection_witness :
    ((fun t => if t = "tok2" then some "H2" else none) "tok2" ≠ some "H1")
    ∧ (handle_hub_handshake (fun t => if t = "tok2" then some "H2" else none)
        0 ⟨"H1", "tok2", "t", "1.0.0"⟩ (MemoryStore.empty 1000)).closeCode
      = some 1008
    ∧ (handle_hub_handshake (fun t => if t = "tok2" then some "H2" else none)
        0 ⟨"H1", "tok2", "t", "1.0.0"⟩ (MemoryStore.empty 1000)).store
      = MemoryStore.empty 1000 :=
  ⟨by decide,
   (C5_handshake_auth_rejection _ 0 ⟨"H1", "tok2", "t", "1.0.0"⟩
      (MemoryStore.empty 1000) (Or.inr (by decide))).1,
   (C5_handshake_auth_rejection _ 0 ⟨"H1", "tok2", "t", "1.0.0"⟩
      (MemoryStore.empty 1000) (Or.inr (by decide))).2⟩

/-! ## Store-update lemmas for the telemetry and device-event handlers -/

theorem get_connection_add_telemetry (st : MemoryStore) (now : Nat)
    (hub_id port_id session_id data : String) (n : Nat) (h p : String) :
    (st.add_telemetry now hub_id port_id session_id data n).get_connection h p
      = st.get_connection h p := rfl

theorem get_connection_update_connection_self (st : MemoryStore) (now : Nat)
    (hub_id port_id status : String) (baud_rate : Nat) (session_id : String)
    (bytes_read bytes_written : Nat) (connected_at : Option Nat) :
    (st.update_connection now hub_id port_id status baud_rate session_id
        bytes_read bytes_written connected_at).get_connection hub_id port_id
      = some ⟨port_id, status, baud_rate, session_id, bytes_read,
              bytes_written, connected_at.getD now⟩ := by
  simp [MemoryStore.update_connection, MemoryStore.get_connection,
    mapLookup_mapInsert_self]

theorem connections_add_device_event (st : MemoryStore) (now : Nat)
    (hub_id event_type port_id : String) (device_info : Option PyDict) :
    (st.add_device_event now hub_id event_type port_id device_info).connections
      = st.connections := by
  simp only [MemoryStore.add_device_event]
  split
  · split <;> rfl
  · rfl

theorem get_port_add_device_event_connected (st : MemoryStore) (now : Nat)
    (hub_id port_id : String) (d : PyDict) (hne : d.isEmpty = false) :
    (st.add_device_event now hub_id "connected" port_id (some d)).get_port
        hub_id port_id
      = some ⟨port_id, dictGetStr d "port" "", dictGetStrOpt d "description",
              dictGetStrOpt d "manufacturer", dictGetStrOpt d "serial_number",
              dictGetStrOpt d "vendor_id", dictGetStrOpt d "product_id"⟩ := by
  simp [MemoryStore.add_device_event, pyTruthyDict?, hne,
    MemoryStore.get_port, mapLookup_mapInsert_self]

theorem get_port_add_device_event_port_entry (st : MemoryStore) (now : Nat)
    (hub_id port_id : String) :
    (st.add_device_event now hub_id "connected" port_id
        (some [("port", PyVal.S port_id)])).get_port hub_id port_id
      = some ⟨port_id, port_id, none, none, none, none, none⟩ := by
  rw [get_port_add_device_event_connected st now hub_id port_id
      [("port", PyVal.S port_id)] rfl]
  rfl

theorem deviceEventsOf_add_device_event (st : MemoryStore) (now : Nat)
    (hub_id event_type port_id : String) (device_info : Option PyDict) :
    (st.add_device_event now hub_id event_type port_id
        device_info).deviceEventsOf hub_id
      = st.deviceEventsOf hub_id ++ [⟨now, event_type, port_id, device_info⟩] := by
  simp only [MemoryStore.add_device_event]
  split
  · split <;> simp [MemoryStore.deviceEventsOf, mapLookup_mapInsert_self]
  · simp [MemoryStore.deviceEventsOf, mapLookup_mapInsert_self]

/-! ## Telemetry upserts the connection record (claim C6) -/

/-- C6: for every telemetry message from hub `H` on port `P` carrying
payload `D`, the connection record for `(H, P)` is upserted: when a record
existed, its `bytes_read` grows by the decoded byte length of `D` and its
connect timestamp is preserved unchanged; when none existed, a new record
is created (with `bytes_read` equal to the decoded length) and a
`"connected"` device event is synthesized, making the port visible in the
port table. -/
theorem C6_telemetry_connection_upsert (b64len : String → Nat)
    (sendOk : String → Bool) (now : Nat) (hub_id : String)
    (m : TelemetryMessage) (st : MemoryStore) (clients : Clients) :
    (∀ cd, st.get_connection hub_id m.portId = some cd →
      (handle_telemetry b64len sendOk now hub_id m st
          clients).store.get_connection hub_id m.portId
        = some ⟨m.portId, "connected", pyOrNat cd.baud_rate 0,
                pyOrStr m.sessionId cd.session_id,
                cd.bytes_read + b64len m.data, cd.bytes_written,
                cd.connected_at⟩)
    ∧ (st.get_connection hub_id m.portId = none →
      (handle_telemetry b64len sendOk now hub_id m st
          clients).store.get_connection hub_id m.portId
        = some ⟨m.portId, "connected", 0, m.sessionId, b64len m.data, 0, now⟩
      ∧ (handle_telemetry b64len sendOk now hub_id m st
          clients).store.get_port hub_id m.portId
        = some ⟨m.portId, m.portId, none, none, none, none, none⟩
      ∧ (handle_telemetry b64len sendOk now hub_id m st
          clients).store.deviceEventsOf hub_id
        = st.deviceEventsOf hub_id
          ++ [⟨now, "connected", m.portId, some [("port", PyVal.S m.portId)]⟩]) := by
  constructor
  · intro cd hcd
    have h1 : (st.add_telemetry now hub_id m.portId m.sessionId m.data
        (b64len m.data)).get_connection hub_id m.portId = some cd := hcd
    simp only [handle_telemetry, h1]
    rw [get_connection_update_connection_self]
    rfl
  · intro hcd
    have h1 : (st.add_telemetry now hub_id m.portId m.sessionId m.data
        (b64len m.data)).get_connection hub_id m.portId = none := hcd
    simp only [handle_telemetry, h1]
    refine ⟨?_, ?_, ?_⟩
    · have h2 : ∀ stA : MemoryStore,
          (stA.add_device_event now hub_id "connected" m.portId
              (some [("port", PyVal.S m.portId)])).get_connection hub_id
              m.portId
            = stA.get_connection hub_id m.portId := by
        intro stA
        simp [MemoryStore.get_connection, connections_add_device_event]
      rw [h2, get_connection_update_connection_self]
      rfl
    · rw [get_port_add_device_event_port_entry]
    · rw [deviceEventsOf_add_device_event]
      rfl

/-- Witness for C6 at both branches: a store with an existing record for
`("H1", "P1")` (bytes read 10, connected at 3) and the empty store, with a
payload of decoded length 3. -/
theorem C6_telemetry_connection_upsert_witness :
    (handle_telemetry (fun _ => 3) (fun _ => true) 7 "H1"
        ⟨"H1", "t", "P1", "s1", "QUJD"⟩
        ((MemoryStore.empty 1000).update_connection 5 "H1" "P1" "connected"
          9600 "s0" 10 2 (some 3)) []).store.get_connection "H1" "P1"
      = some ⟨"P1", "connected", 9600, "s1", 13, 2, 3⟩
    ∧ (handle_telemetry (fun _ => 3) (fun _ => true) 7 "H1"
        ⟨"H1", "t", "P1", "s1", "QUJD"⟩ (MemoryStore.empty 1000)
        []).store.get_connection "H1" "P1"
      = some ⟨"P1", "connected", 0, "s1", 3, 0, 7⟩
    ∧ (handle_telemetry (fun _ => 3) (fun _ => true) 7 "H1"
        ⟨"H1", "t", "P1", "s1", "QUJD"⟩ (MemoryStore.empty 1000)
        []).store.get_port "H1" "P1"
      = some ⟨"P1", "P1", none, none, none, none, none⟩ :=
  ⟨((C6_telemetry_connection_upsert (fun _ => 3) (fun _ => true) 7 "H1"
      ⟨"H1", "t", "P1", "s1", "QUJD"⟩
      ((MemoryStore.empty 1000).update_connection 5 "H1" "P1" "connected"
        9600 "s0" 10 2 (some 3)) []).1
      ⟨"P1", "connected", 9600, "s0", 10, 2, 3⟩ (by decide)).trans (by decide),
   (((C6_telemetry_connection_upsert (fun _ => 3) (fun _ => true) 7 "H1"
      ⟨"H1", "t", "P1", "s1", "QUJD"⟩ (MemoryStore.empty 1000) []).2
      (by decide)).1),
   (((C6_telemetry_connection_upsert (fun _ => 3) (fun _ => true) 7 "H1"
      ⟨"H1", "t", "P1", "s1", "QUJD"⟩ (MemoryStore.empty 1000) []).2
      (by decide)).2.1)⟩

/-! ## Command dispatch failures (claim C7) -/

/-- C7: dispatching a command to a hub id with no live session returns
`false` without raising; with the hub present, a send failure is likewise
reported as `false` and a successful send as `true` — the dispatcher is a
total boolean-returning function, never an exception. -/
theorem C7_dispatch_reports_boolean (sendResult : Except String Unit)
    (st : MemoryStore) (hub_id : String) :
    (st.get_hub_connection hub_id = none →
      send_command_to_hub sendResult st hub_id = false)
    ∧ (∀ e, sendResult = Except.error e →
      send_command_to_hub sendResult st hub_id = false)
    ∧ (∀ hc, st.get_hub_connection hub_id = some hc →
      sendResult = Except.ok () →
      send_command_to_hub sendResult st hub_id = true) := by
  unfold send_command_to_hub
  refine ⟨fun h => by rw [h], fun e he => ?_, fun hc h hok => by rw [h, hok]⟩
  cases hconn : st.get_hub_connection hub_id
  · rfl
  · rw [he]

/-- Witness for C7: the empty store has no session for `"H2"`, so dispatch
fails; with `"H1"` registered, a failing send yields `false` and a
successful send yields `true`. -/
theorem C7_dispatch_reports_boolean_witness :
    (MemoryStore.empty 1000).get_hub_connection "H2" = none
    ∧ send_command_to_hub (Except.ok ()) (MemoryStore.empty 1000) "H2" = false
    ∧ send_command_to_hub (Except.error "closed")
        ((MemoryStore.empty 1000).add_hub_connection 0 "H1" "1.0.0") "H1"
      = false
    ∧ send_command_to_hub (Except.ok ())
        ((MemoryStore.empty 1000).add_hub_connection 0 "H1" "1.0.0") "H1"
      = true :=
  ⟨rfl,
   (C7_dispatch_reports_boolean (Except.ok ()) (MemoryStore.empty 1000)
      "H2").1 rfl,
   (C7_dispatch_reports_boolean (Except.error "closed")
      ((MemoryStore.empty 1000).add_hub_connection 0 "H1" "1.0.0") "H1").2.1
      "closed" rfl,
   (C7_dispatch_reports_boolean (Except.ok ())
      ((MemoryStore.empty 1000).add_hub_connection 0 "H1" "1.0.0") "H1").2.2
      ⟨"H1", 0, 0, "1.0.0"⟩ (by decide) rfl⟩

/-! ## Device-event record updates (claim C9) -/

theorem get_port_update_connection (st : MemoryStore) (now : Nat)
    (hub_id port_id status : String) (baud_rate : Nat) (session_id : String)
    (bytes_read bytes_written : Nat) (connected_at : Option Nat)
    (h p : String) :
    (st.update_connection now hub_id port_id status baud_rate session_id
        bytes_read bytes_written connected_at).get_port h p
      = st.get_port h p := rfl

theorem get_connection_remove_connection_self (st : MemoryStore)
    (hub_id port_id : String) :
    (st.remove_connection hub_id port_id).get_connection hub_id port_id
      = none := by
  simp [MemoryStore.remove_connection, MemoryStore.get_connection,
    mapLookup_mapErase_self]

/-- Counterexample to C9 as stated: a `"connected"` device event carrying
no `deviceInfo` populates no port metadata and creates no connection
record — both lookups still miss after the handler runs, where the claim
requires them to be populated. -/
theorem C9_counterexample :
    (handle_device_event (fun _ => true) 0 "H1"
        ⟨"H1", "t", "connected", "P1", none⟩ (MemoryStore.empty 1000)
        []).store.get_port "H1" "P1" = none
    ∧ (handle_device_event (fun _ => true) 0 "H1"
        ⟨"H1", "t", "connected", "P1", none⟩ (MemoryStore.empty 1000)
        []).store.get_connection "H1" "P1" = none :=
  ⟨by decide, by decide⟩

/-- C9 amended: when `eventType` is `"connected"` **and the message carries
a non-empty `deviceInfo`**, the port metadata for `(hub id, port id)` is
populated in the port table and a connection record is created; when
`eventType` is `"disconnected"`, the connection record for that pair is
removed. -/
theorem C9_device_event_records (sendOk : String → Bool) (now : Nat)
    (hub_id : String) (m : DeviceEventMessage) (st : MemoryStore)
    (clients : Clients) :
    (m.eventType = "connected" → ∀ d, m.deviceInfo = some d →
      d.isEmpty = false →
      (handle_device_event sendOk now hub_id m st clients).store.get_port
          hub_id m.portId
        = some ⟨m.portId, dictGetStr d "port" "",
                dictGetStrOpt d "description", dictGetStrOpt d "manufacturer",
                dictGetStrOpt d "serial_number", dictGetStrOpt d "vendor_id",
                dictGetStrOpt d "product_id"⟩
      ∧ (handle_device_event sendOk now hub_id m st
          clients).store.get_connection hub_id m.portId
        = some ⟨m.portId, "connected", dictGetNat d "baud_rate" 115200,
                dictGetStr d "session_id" "", 0, 0, now⟩)
    ∧ (m.eventType = "disconnected" →
      (handle_device_event sendOk now hub_id m st
          clients).store.get_connection hub_id m.portId = none) := by
  constructor
  · intro het d hd hne
    have hc : pyTruthyDict? (some d) = true := by
      simp [pyTruthyDict?, hne]
    refine ⟨?_, ?_⟩ <;>
      simp [handle_device_event, het, hd, hc, get_port_update_connection,
        get_port_add_device_event_connected st now hub_id m.portId d hne,
        get_connection_update_connection_self]
  · intro het
    have h1 : ("disconnected" : String) ≠ "connected" := by decide
    simp [handle_device_event, het, h1, get_connection_remove_connection_self]

/-- Witness for C9: a `"connected"` event with a non-empty `deviceInfo`
populates the port table and creates the connection record, and a
`"disconnected"` event removes an existing connection record. -/
theorem C9_device_event_records_witness :
    (handle_device_event (fun _ => true) 4 "H1"
        ⟨"H1", "t", "connected", "P1",
          some [("baud_rate", PyVal.N 9600), ("session_id", PyVal.S "s7"),
                ("port", PyVal.S "ttyUSB0")]⟩
        (MemoryStore.empty 1000) []).store.get_port "H1" "P1"
      = some ⟨"P1", "ttyUSB0", none, none, none, none, none⟩
    ∧ (handle_device_event (fun _ => true) 4 "H1"
        ⟨"H1", "t", "connected", "P1",
          some [("baud_rate", PyVal.N 9600), ("session_id", PyVal.S "s7"),
                ("port", PyVal.S "ttyUSB0")]⟩
        (MemoryStore.empty 1000) []).store.get_connection "H1" "P1"
      = some ⟨"P1", "connected", 9600, "s7", 0, 0, 4⟩
    ∧ (handle_device_event (fun _ => true) 9 "H1"
        ⟨"H1", "t", "disconnected", "P1", none⟩
        ((MemoryStore.empty 1000).update_connection 1 "H1" "P1" "connected"
          9600 "s" 5 0 none) []).store.get_connection "H1" "P1" = none :=
  ⟨(((C9_device_event_records (fun _ => true) 4 "H1"
      ⟨"H1", "t", "connected", "P1",
        some [("baud_rate", PyVal.N 9600), ("session_id", PyVal.S "s7"),
              ("port", PyVal.S "ttyUSB0")]⟩
      (MemoryStore.empty 1000) []).1 rfl
      [("baud_rate", PyVal.N 9600), ("session_id", PyVal.S "s7"),
       ("port", PyVal.S "ttyUSB0")] rfl rfl).1).trans (by decide),
   (((C9_device_event_records (fun _ => true) 4 "H1"
      ⟨"H1", "t", "connected", "P1",
        some [("baud_rate", PyVal.N 9600), ("session_id", PyVal.S "s7"),
              ("port", PyVal.S "ttyUSB0")]⟩
      (MemoryStore.empty 1000) []).1 rfl
      [("baud_rate", PyVal.N 9600), ("session_id", PyVal.S "s7"),
       ("port", PyVal.S "ttyUSB0")] rfl rfl).2).trans (by decide),
   (C9_device_event_records (fun _ => true) 9 "H1"
      ⟨"H1", "t", "disconnected", "P1", none⟩
      ((MemoryStore.empty 1000).update_connection 1 "H1" "P1" "connected"
        9600 "s" 5 0 none) []).2 rfl⟩

/-! ## Task-status handling never broadcasts (claim C1) -/

/-- C1, evaluated at the failing input: a `task_status` message from an
authenticated hub updates the `TaskStatusRecord` for `(hub id, task id)`,
but nothing is sent to any connected client — the fan-out is empty even
with a live client session registered — because `handle_task_status`
(hub_endpoint.py:300) never invokes `ClientManager.broadcast_task_status`
(client_endpoint.py:103, which has no call site in the repository). -/
theorem C1_task_status_not_broadcast :
    (handle_task_status 3 "H1" ⟨"H1", "t", "T1", "completed", none, none, none⟩
        (MemoryStore.empty 1000)
        [("client_1", ⟨"alice", []⟩)]).store.get_task_status "H1" "T1"
      = some ⟨3, "T1", "completed", none, none, none⟩
    ∧ (handle_task_status 3 "H1"
        ⟨"H1", "t", "T1", "completed", none, none, none⟩
        (MemoryStore.empty 1000)
        [("client_1", ⟨"alice", []⟩)]).fanout.attempted = []
    ∧ (handle_task_status 3 "H1"
        ⟨"H1", "t", "T1", "completed", none, none, none⟩
        (MemoryStore.empty 1000)
        [("client_1", ⟨"alice", []⟩)]).clients
      = [("client_1", ⟨"alice", []⟩)] :=
  ⟨by decide, rfl, rfl⟩
